import Mathlib

/-!
Verification of the puya compiler core against its specification.

This file shallowly embeds the parts of the source that the checked claims
are about:

* `puya/awst/wtypes.py` — the wire-type universe, its constructors,
  structural equality, and `valid_address`;
* `puyapy/awst_build/eb/arc4/_utils.py` — ARC4 method-signature splitting
  and the method selector;
* `puya/awst_build/eb/biguint.py` — BigUInt operator translation;
* `puya/awst_build/eb/arc4/tuple.py` — ARC4 tuple indexing;
* `puya/teal/main.py` — MIR → TEAL lowering and the optimization pipeline
  with its stack-manipulation conservation assert.

Machine integers do not occur (Python ints are unbounded); 64-bit hash
arithmetic is made explicit with `% 2 ^ 64`.  Fallible constructors
(`CodeError` / `InternalError` raises) are embedded as `Except String` or
`Option` results.  Definitions whose code lives outside the packaged
sources (the Python standard library's base32 decoder, the SHA-512/256
primitive, the MIR/TEAL data declarations and the optimizer passes) are
modelled from the specification and marked as such in their doc comments.
-/

namespace Puya

/-! ## SHA-512/256

Modelled from the spec: the source calls `puya.utils.sha512_256_hash`
(not part of the packaged sources), which is the standard FIPS 180-4
SHA-512/256 — SHA-512 with a distinct initial vector, truncated to the
first 32 bytes of output.  Embedded over `Nat` with explicit `% 2 ^ 64`.
-/

/-- 64-bit truncation modulus. -/
def word64 : Nat := 2 ^ 64

/-- Right-rotation of a 64-bit word by `n` bits. -/
def rotr64 (n x : Nat) : Nat := ((x >>> n) ||| (x <<< (64 - n))) % word64

/-- The big sigma-0 function of SHA-512. -/
def bSig0 (x : Nat) : Nat := rotr64 28 x ^^^ rotr64 34 x ^^^ rotr64 39 x

/-- The big sigma-1 function of SHA-512. -/
def bSig1 (x : Nat) : Nat := rotr64 14 x ^^^ rotr64 18 x ^^^ rotr64 41 x

/-- The small sigma-0 function of SHA-512 (message schedule). -/
def sSig0 (x : Nat) : Nat := rotr64 1 x ^^^ rotr64 8 x ^^^ (x >>> 7)

/-- The small sigma-1 function of SHA-512 (message schedule). -/
def sSig1 (x : Nat) : Nat := rotr64 19 x ^^^ rotr64 61 x ^^^ (x >>> 6)

/-- A 64-bit word from its two 32-bit hex halves (keeps the constant
tables readable against FIPS 180-4). -/
def w64of (hi lo : Nat) : Nat := hi * 2 ^ 32 + lo

/-- The 80 SHA-512 round constants. -/
def sha512K : List Nat :=
  [w64of 0x428a2f98 0xd728ae22, w64of 0x71374491 0x23ef65cd,
   w64of 0xb5c0fbcf 0xec4d3b2f, w64of 0xe9b5dba5 0x8189dbbc,
   w64of 0x3956c25b 0xf348b538, w64of 0x59f111f1 0xb605d019,
   w64of 0x923f82a4 0xaf194f9b, w64of 0xab1c5ed5 0xda6d8118,
   w64of 0xd807aa98 0xa3030242, w64of 0x12835b01 0x45706fbe,
   w64of 0x243185be 0x4ee4b28c, w64of 0x550c7dc3 0xd5ffb4e2,
   w64of 0x72be5d74 0xf27b896f, w64of 0x80deb1fe 0x3b1696b1,
   w64of 0x9bdc06a7 0x25c71235, w64of 0xc19bf174 0xcf692694,
   w64of 0xe49b69c1 0x9ef14ad2, w64of 0xefbe4786 0x384f25e3,
   w64of 0x0fc19dc6 0x8b8cd5b5, w64of 0x240ca1cc 0x77ac9c65,
   w64of 0x2de92c6f 0x592b0275, w64of 0x4a7484aa 0x6ea6e483,
   w64of 0x5cb0a9dc 0xbd41fbd4, w64of 0x76f988da 0x831153b5,
   w64of 0x983e5152 0xee66dfab, w64of 0xa831c66d 0x2db43210,
   w64of 0xb00327c8 0x98fb213f, w64of 0xbf597fc7 0xbeef0ee4,
   w64of 0xc6e00bf3 0x3da88fc2, w64of 0xd5a79147 0x930aa725,
   w64of 0x06ca6351 0xe003826f, w64of 0x14292967 0x0a0e6e70,
   w64of 0x27b70a85 0x46d22ffc, w64of 0x2e1b2138 0x5c26c926,
   w64of 0x4d2c6dfc 0x5ac42aed, w64of 0x53380d13 0x9d95b3df,
   w64of 0x650a7354 0x8baf63de, w64of 0x766a0abb 0x3c77b2a8,
   w64of 0x81c2c92e 0x47edaee6, w64of 0x92722c85 0x1482353b,
   w64of 0xa2bfe8a1 0x4cf10364, w64of 0xa81a664b 0xbc423001,
   w64of 0xc24b8b70 0xd0f89791, w64of 0xc76c51a3 0x0654be30,
   w64of 0xd192e819 0xd6ef5218, w64of 0xd6990624 0x5565a910,
   w64of 0xf40e3585 0x5771202a, w64of 0x106aa070 0x32bbd1b8,
   w64of 0x19a4c116 0xb8d2d0c8, w64of 0x1e376c08 0x5141ab53,
   w64of 0x2748774c 0xdf8eeb99, w64of 0x34b0bcb5 0xe19b48a8,
   w64of 0x391c0cb3 0xc5c95a63, w64of 0x4ed8aa4a 0xe3418acb,
   w64of 0x5b9cca4f 0x7763e373, w64of 0x682e6ff3 0xd6b2b8a3,
   w64of 0x748f82ee 0x5defb2fc, w64of 0x78a5636f 0x43172f60,
   w64of 0x84c87814 0xa1f0ab72, w64of 0x8cc70208 0x1a6439ec,
   w64of 0x90befffa 0x23631e28, w64of 0xa4506ceb 0xde82bde9,
   w64of 0xbef9a3f7 0xb2c67915, w64of 0xc67178f2 0xe372532b,
   w64of 0xca273ece 0xea26619c, w64of 0xd186b8c7 0x21c0c207,
   w64of 0xeada7dd6 0xcde0eb1e, w64of 0xf57d4f7f 0xee6ed178,
   w64of 0x06f067aa 0x72176fba, w64of 0x0a637dc5 0xa2c898a6,
   w64of 0x113f9804 0xbef90dae, w64of 0x1b710b35 0x131c471b,
   w64of 0x28db77f5 0x23047d84, w64of 0x32caab7b 0x40c72493,
   w64of 0x3c9ebe0a 0x15c9bebc, w64of 0x431d67c4 0x9c100d4c,
   w64of 0x4cc5d4be 0xcb3e42b6, w64of 0x597f299c 0xfc657e2a,
   w64of 0x5fcb6fab 0x3ad6faec, w64of 0x6c44198c 0x4a475817]

/-- The SHA-512/256 initial hash value (FIPS 180-4 §5.3.6.2). -/
structure Hash8 where
  a : Nat
  b : Nat
  c : Nat
  d : Nat
  e : Nat
  f : Nat
  g : Nat
  h : Nat

/-- Initial vector of SHA-512/256. -/
def sha512_256IV : Hash8 :=
  ⟨w64of 0x22312194 0xfc2bf72c,
   w64of 0x9f555fa3 0xc84c64c2,
   w64of 0x2393b86b 0x6f53b151,
   w64of 0x96387719 0x5940eabd,
   w64of 0x96283ee2 0xa88effe3,
   w64of 0xbe5e1e25 0x53863992,
   w64of 0x2b0199fc 0x2c85b8aa,
   w64of 0x0eb72ddc 0x81c52ca2⟩

/-- One SHA-512 compression round: fold the round constant plus the
scheduled word `kw` into the running state. -/
def sha512Round (st : Hash8) (kw : Nat) : Hash8 :=
  let t1 := (st.h + bSig1 st.e + ((st.e &&& st.f) ^^^ ((st.e ^^^ (word64 - 1)) &&& st.g)) + kw) % word64
  let t2 := (bSig0 st.a + ((st.a &&& st.b) ^^^ (st.a &&& st.c) ^^^ (st.b &&& st.c))) % word64
  ⟨(t1 + t2) % word64, st.a, st.b, st.c, (st.d + t1) % word64, st.e, st.f, st.g⟩

/-- Extend a 16-word block to the 80-word SHA-512 message schedule. -/
def sha512Schedule (block : List Nat) : List Nat :=
  (List.range 64).foldl
    (fun w _ =>
      let n := w.length
      let wi := (sSig1 (w.getD (n - 2) 0) + w.getD (n - 7) 0
                  + sSig0 (w.getD (n - 15) 0) + w.getD (n - 16) 0) % word64
      w ++ [wi])
    block

/-- Compress one 16-word message block into the running hash state. -/
def sha512Compress (st : Hash8) (block : List Nat) : Hash8 :=
  let w := sha512Schedule block
  let kw := sha512K.zipWith (fun k wi => (k + wi) % word64) w
  let r := kw.foldl sha512Round st
  ⟨(st.a + r.a) % word64, (st.b + r.b) % word64, (st.c + r.c) % word64,
   (st.d + r.d) % word64, (st.e + r.e) % word64, (st.f + r.f) % word64,
   (st.g + r.g) % word64, (st.h + r.h) % word64⟩

/-- `k` big-endian bytes of `n`. -/
def toBytesBE : Nat → Nat → List Nat
  | 0, _ => []
  | k + 1, n => toBytesBE k (n / 256) ++ [n % 256]

/-- Big-endian 64-bit word from a list of up to 8 bytes. -/
def wordOfBytesBE (bs : List Nat) : Nat := bs.foldl (fun acc b => acc * 256 + b) 0

/-- Chunking worker: `cur` is the reversed current chunk and `room` the
number of free slots left in it. -/
def chunkGo (k : Nat) (cur : List α) (room : Nat) : List α → List (List α)
  | [] => if cur.isEmpty then [] else [cur.reverse]
  | x :: xs =>
    match room with
    | 0 => cur.reverse :: chunkGo k [x] (k - 1) xs
    | r + 1 => chunkGo k (x :: cur) r xs

/-- Split a list into chunks of `k` elements (the last chunk may be short). -/
def chunkList (k : Nat) (xs : List α) : List (List α) :=
  if k = 0 then [] else chunkGo k [] k xs

/-- SHA-512 padding: append `0x80`, zeros, and the 128-bit bit length, to a
multiple of 128 bytes. -/
def sha512Pad (msg : List Nat) : List Nat :=
  let l := msg.length
  msg ++ [0x80] ++ List.replicate ((128 - (l + 17) % 128) % 128) 0 ++ toBytesBE 16 (8 * l)

/-- SHA-512/256 of a byte string, as the 32-byte digest. -/
def sha512_256 (msg : List Nat) : List Nat :=
  let blocks := chunkList 16 ((chunkList 8 (sha512Pad msg)).map wordOfBytesBE)
  let r := blocks.foldl sha512Compress sha512_256IV
  toBytesBE 8 r.a ++ toBytesBE 8 r.b ++ toBytesBE 8 r.c ++ toBytesBE 8 r.d

/-! ## RFC-4648 base32 decoding

Modelled from the spec: the source delegates to the Python standard
library's `base64.b32decode` (RFC-4648 base32); this is a faithful
embedding of that decoder.  It accepts only strings whose length is a
multiple of 8, strips trailing `=` padding (the count of stripped pad
characters must be one of 0, 1, 3, 4, 6), folds each 8-character quantum
into a 40-bit accumulator (failing on any non-alphabet character), and
trims the trailing quantum according to the pad count.
-/

/-- Value of a base32 alphabet character: `A`–`Z` map to 0–25 and `2`–`7`
map to 26–31; anything else is rejected. -/
def b32Val (c : Char) : Option Nat :=
  if 'A' ≤ c ∧ c ≤ 'Z' then some (c.toNat - 'A'.toNat)
  else if '2' ≤ c ∧ c ≤ '7' then some (c.toNat - '2'.toNat + 26)
  else none

/-- Fold one quantum of up to 8 base32 characters into an accumulator;
`none` if any character is outside the alphabet. -/
def b32Quantum (quanta : List Char) : Option Nat :=
  quanta.foldl
    (fun acc c =>
      match acc, b32Val c with
      | some a, some v => some (a * 32 + v)
      | _, _ => none)
    (some 0)

/-- The base32 decode loop: each quantum appends five big-endian bytes of
its accumulator; the final accumulator is kept for the padding fix-up. -/
def b32DecodeChunks (chunks : List (List Char)) : Option (List Nat × Nat) :=
  chunks.foldl
    (fun st chunk =>
      match st, b32Quantum chunk with
      | some (decoded, _), some acc => some (decoded ++ toBytesBE 5 acc, acc)
      | _, _ => none)
    (some ([], 0))

/-- Drop every trailing `=` character. -/
def stripTrailingEq (s : List Char) : List Char :=
  (s.reverse.dropWhile (· = '=')).reverse

/-- RFC-4648 base32 decode of a character string to bytes, `none` on any
decoding failure. -/
def b32decode (s : List Char) : Option (List Nat) :=
  if s.length % 8 ≠ 0 then none
  else
    let stripped := stripTrailingEq s
    let padchars := s.length - stripped.length
    match b32DecodeChunks (chunkList 8 stripped) with
    | none => none
    | some (decoded, acc) =>
      if ¬(padchars = 0 ∨ padchars = 1 ∨ padchars = 3 ∨ padchars = 4 ∨ padchars = 6) then
        none
      else if padchars ≠ 0 ∧ decoded ≠ [] then
        -- the final quantum held 8 - padchars characters, so the shifted
        -- accumulator always fits in five bytes here
        let last := toBytesBE 5 (acc <<< (5 * padchars))
        let leftover := (43 - 5 * padchars) / 8
        some (decoded.take (decoded.length - 5) ++ last.take leftover)
      else some decoded

/-! ## Address validation (`puya/awst/wtypes.py`) -/

/-- Modelled from the spec: the AVM's 4096-byte maximum byte-string length
(`algo_constants.MAX_BYTES_LENGTH`). -/
def MAX_BYTES_LENGTH : Nat := 4096

/-- Modelled from the spec: addresses are 58 characters
(`algo_constants.ENCODED_ADDRESS_LENGTH`). -/
def ENCODED_ADDRESS_LENGTH : Nat := 58

/-- Modelled from the spec: the public-key part of a decoded address is 32
bytes (`algo_constants.PUBLIC_KEY_HASH_LENGTH`). -/
def PUBLIC_KEY_HASH_LENGTH : Nat := 32

/-- Modelled from the spec: the checksum part of a decoded address is 4
bytes (`algo_constants.ADDRESS_CHECKSUM_LENGTH`). -/
def ADDRESS_CHECKSUM_LENGTH : Nat := 4

/-- `wtypes.valid_base32`: the string decodes as base32 and the decoded
value fits into the AVM bytes type. -/
def valid_base32 (s : String) : Bool :=
  match b32decode s.toList with
  | none => false
  | some value => value.length ≤ MAX_BYTES_LENGTH

/-- The last `k` bytes of a byte string (Python `bs[-k:]` for `0 < k ≤ len`). -/
def lastBytes (k : Nat) (bs : List Nat) : List Nat := bs.drop (bs.length - k)

/-- `wtypes.valid_address`: pad the address with six `=` so it is a valid
base32 string, require length 58 and a base32 decode to 32 + 4 bytes, and
compare the final 4 bytes against the last 4 bytes of the SHA-512/256 of
the first 32.  (The inner `none` decode branch is unreachable because
`valid_base32` already succeeded; Python decodes the same string twice.) -/
def valid_address (address : String) : Bool :=
  let padded_address := address ++ "======"
  if ¬(address.length = ENCODED_ADDRESS_LENGTH ∧ valid_base32 padded_address) then false
  else
    match b32decode padded_address.toList with
    | none => false
    | some address_bytes =>
      if address_bytes.length ≠ PUBLIC_KEY_HASH_LENGTH + ADDRESS_CHECKSUM_LENGTH then false
      else
        let public_key_hash := address_bytes.take PUBLIC_KEY_HASH_LENGTH
        let check_sum := address_bytes.drop PUBLIC_KEY_HASH_LENGTH
        let verified_check_sum := lastBytes ADDRESS_CHECKSUM_LENGTH (sha512_256 public_key_hash)
        check_sum == verified_check_sum

/-- The claim's characterisation of a valid address: exactly 58 characters,
the 6-`=`-padded string decodes under RFC-4648 base32 to exactly 36 bytes,
and the final 4 of those bytes equal the last 4 bytes of the SHA-512/256 of
the first 32. -/
def validAddressSpec (s : String) : Prop :=
  s.length = 58 ∧
    ∃ bs, b32decode (s ++ "======").toList = some bs ∧ bs.length = 36 ∧
      bs.drop 32 = lastBytes 4 (sha512_256 (bs.take 32))

/-- C2: `valid_address s` returns `true` if and only if `s` is exactly 58
characters long, `s` padded with six `=` characters decodes under RFC-4648
base32 to exactly 36 bytes, and the final 4 of those bytes equal the last
4 bytes of the SHA-512/256 of the first 32 bytes; for every other string
it returns `false`. -/
theorem valid_address_iff_spec (s : String) :
    valid_address s = true ↔ validAddressSpec s := by
  unfold valid_address validAddressSpec valid_base32
  simp only [ENCODED_ADDRESS_LENGTH, MAX_BYTES_LENGTH, PUBLIC_KEY_HASH_LENGTH,
    ADDRESS_CHECKSUM_LENGTH]
  generalize b32decode (s ++ "======").toList = r
  cases r with
  | none => simp
  | some bs =>
    split_ifs with h
    · obtain ⟨h58, hle⟩ := h
      by_cases h36 : bs.length = 36
      · simp [h58, h36]
      · simp [h58, h36]
    · simp only [Bool.false_eq_true, false_iff]
      rintro ⟨h58, bs', hbs, h36, hc⟩
      obtain rfl : bs = bs' := by injection hbs
      exact h ⟨h58, by simp [h36]⟩

-- The Algorand zero address (32 zero bytes plus its checksum) really
-- validates; a corrupted final character does not.  A concrete check of the
-- embedding, independent of the claim theorems.
set_option maxRecDepth 100000 in
example :
    valid_address "AAAAAAAAAAAAAAAAAAAAAAAAAAAAAAAAAAAAAAAAAAAAAAAAAAAAY5HFKQ" = true ∧
    valid_address "AAAAAAAAAAAAAAAAAAAAAAAAAAAAAAAAAAAAAAAAAAAAAAAAAAAAY5HFKA" = false := by
  constructor <;> decide

/-! ## The wire-type universe (`puya/awst/wtypes.py`)

Each Python `attrs` class becomes one constructor of an inductive type; a
field whose value is fixed by the class (for example `scalar_type` on the
ARC4 classes, or `immutable = True` on `WTuple`) is encoded by the
constructor tag rather than stored.  `attrs`-generated equality compares
the concrete class and every stored field except `arc4_name` (declared
with `eq=False`), which `wtypeEq` mirrors below.
-/

/-- `puya.avm_type.AVMType`: the two native AVM stack value classes. -/
inductive AVMType where
  | uint64
  | bytes
deriving DecidableEq

/-- Modelled from the spec: the fixed enum of transaction kinds
(`constants.TransactionType`, not under the packaged sources). -/
inductive TransactionType where
  | pay
  | keyreg
  | acfg
  | axfer
  | afrz
  | appl
deriving DecidableEq

/-- The closed wtype universe.  One constructor per `attrs` class:
`WType` itself (`base`), the three transaction classes, `WStructType`,
`WArray`, `WTuple`, plain `ARC4Type` instances (`arc4Plain`, only
`arc4_bool_wtype` in the source), `ARC4UIntN`, `ARC4UFixedNxM`,
`ARC4Tuple`, `ARC4DynamicArray`, `ARC4StaticArray` and `ARC4Struct`. -/
inductive WType where
  | base (name : String) (scalar_type : Option AVMType) (ephemeral : Bool) (immutable : Bool)
  | groupTransaction (name : String) (transaction_type : Option TransactionType)
  | innerTransaction (name : String) (transaction_type : Option TransactionType)
  | innerTransactionFields (name : String) (transaction_type : Option TransactionType)
  | wstruct (name : String) (fields : List (String × WType)) (immutable : Bool)
  | warray (name : String) (element_type : WType)
  | wtuple (name : String) (types : List WType)
  | arc4Plain (name : String) (arc4_name : String) (immutable : Bool)
      (decode_type : Option WType)
  | arc4UIntN (name : String) (arc4_name : String) (n : Nat) (decode_type : WType)
  | arc4UFixedNxM (name : String) (arc4_name : String) (n : Nat) (m : Nat)
  | arc4Tuple (name : String) (arc4_name : String) (types : List WType) (immutable : Bool)
      (decode_type : WType)
  | arc4DynamicArray (name : String) (arc4_name : String) (element_type : WType)
      (decode_type : Option WType) (immutable : Bool)
  | arc4StaticArray (name : String) (arc4_name : String) (element_type : WType)
      (array_size : Nat) (decode_type : Option WType) (immutable : Bool)
  | arc4Struct (name : String) (arc4_name : String) (fields : List (String × WType))
      (immutable : Bool)

/-- The canonical `name` field every wtype stores. -/
def WType.name : WType → String
  | .base n _ _ _ => n
  | .groupTransaction n _ => n
  | .innerTransaction n _ => n
  | .innerTransactionFields n _ => n
  | .wstruct n _ _ => n
  | .warray n _ => n
  | .wtuple n _ => n
  | .arc4Plain n _ _ _ => n
  | .arc4UIntN n _ _ _ => n
  | .arc4UFixedNxM n _ _ _ => n
  | .arc4Tuple n _ _ _ _ => n
  | .arc4DynamicArray n _ _ _ _ => n
  | .arc4StaticArray n _ _ _ _ _ => n
  | .arc4Struct n _ _ _ => n

/-- The `immutable` field (fixed by the class for transaction types,
`WArray`, `WTuple`, `ARC4UIntN` and `ARC4UFixedNxM`). -/
def WType.immutable : WType → Bool
  | .base _ _ _ i => i
  | .groupTransaction _ _ => true
  | .innerTransaction _ _ => true
  | .innerTransactionFields _ _ => true
  | .wstruct _ _ i => i
  | .warray _ _ => false
  | .wtuple _ _ => true
  | .arc4Plain _ _ i _ => i
  | .arc4UIntN _ _ _ _ => true
  | .arc4UFixedNxM _ _ _ _ => true
  | .arc4Tuple _ _ _ i _ => i
  | .arc4DynamicArray _ _ _ _ i => i
  | .arc4StaticArray _ _ _ _ _ i => i
  | .arc4Struct _ _ _ i => i

/-- The ARC4 canonical name, for the ARC4 classes only. -/
def WType.arc4_name : WType → Option String
  | .arc4Plain _ a _ _ => some a
  | .arc4UIntN _ a _ _ => some a
  | .arc4UFixedNxM _ a _ _ => some a
  | .arc4Tuple _ a _ _ _ => some a
  | .arc4DynamicArray _ a _ _ _ => some a
  | .arc4StaticArray _ a _ _ _ _ => some a
  | .arc4Struct _ a _ _ => some a
  | _ => none

/-- `isinstance(-, ARC4Type)`. -/
def WType.isARC4 (w : WType) : Bool := (WType.arc4_name w).isSome

/-- The `decode_type` field of the ARC4 classes (`none` elsewhere; always
`None` on `ARC4UFixedNxM` and `ARC4Struct`). -/
def WType.decode_type : WType → Option WType
  | .arc4Plain _ _ _ d => d
  | .arc4UIntN _ _ _ d => some d
  | .arc4Tuple _ _ _ _ d => some d
  | .arc4DynamicArray _ _ _ d _ => d
  | .arc4StaticArray _ _ _ _ d _ => d
  | _ => none

mutual

/-- Structural equality as `attrs` generates it: the classes must coincide
and every stored field is compared except the ARC4 canonical name
`arc4_name`, which is declared `eq=False` so that aliases unify.
(Python's dict equality on struct fields ignores insertion order; the
comparison here is order-sensitive, which no stated theorem depends on.) -/
def wtypeEq : WType → WType → Bool
  | .base n1 s1 e1 i1, .base n2 s2 e2 i2 =>
    n1 == n2 && s1 == s2 && e1 == e2 && i1 == i2
  | .groupTransaction n1 t1, .groupTransaction n2 t2 => n1 == n2 && t1 == t2
  | .innerTransaction n1 t1, .innerTransaction n2 t2 => n1 == n2 && t1 == t2
  | .innerTransactionFields n1 t1, .innerTransactionFields n2 t2 => n1 == n2 && t1 == t2
  | .wstruct n1 f1 i1, .wstruct n2 f2 i2 => n1 == n2 && wtypeFieldsEq f1 f2 && i1 == i2
  | .warray n1 e1, .warray n2 e2 => n1 == n2 && wtypeEq e1 e2
  | .wtuple n1 t1, .wtuple n2 t2 => n1 == n2 && wtypeListEq t1 t2
  | .arc4Plain n1 _ i1 d1, .arc4Plain n2 _ i2 d2 =>
    n1 == n2 && i1 == i2 && wtypeOptEq d1 d2
  | .arc4UIntN n1 _ b1 d1, .arc4UIntN n2 _ b2 d2 =>
    n1 == n2 && b1 == b2 && wtypeEq d1 d2
  | .arc4UFixedNxM n1 _ b1 m1, .arc4UFixedNxM n2 _ b2 m2 =>
    n1 == n2 && b1 == b2 && m1 == m2
  | .arc4Tuple n1 _ t1 i1 d1, .arc4Tuple n2 _ t2 i2 d2 =>
    n1 == n2 && wtypeListEq t1 t2 && i1 == i2 && wtypeEq d1 d2
  | .arc4DynamicArray n1 _ e1 d1 i1, .arc4DynamicArray n2 _ e2 d2 i2 =>
    n1 == n2 && wtypeEq e1 e2 && wtypeOptEq d1 d2 && i1 == i2
  | .arc4StaticArray n1 _ e1 s1 d1 i1, .arc4StaticArray n2 _ e2 s2 d2 i2 =>
    n1 == n2 && wtypeEq e1 e2 && s1 == s2 && wtypeOptEq d1 d2 && i1 == i2
  | .arc4Struct n1 _ f1 i1, .arc4Struct n2 _ f2 i2 =>
    n1 == n2 && wtypeFieldsEq f1 f2 && i1 == i2
  | _, _ => false

/-- Pointwise `wtypeEq` on type lists. -/
def wtypeListEq : List WType → List WType → Bool
  | [], [] => true
  | a :: as, b :: bs => wtypeEq a b && wtypeListEq as bs
  | _, _ => false

/-- `wtypeEq` lifted to optional wtypes. -/
def wtypeOptEq : Option WType → Option WType → Bool
  | none, none => true
  | some a, some b => wtypeEq a b
  | _, _ => false

/-- Pointwise name/`wtypeEq` comparison of struct field maps. -/
def wtypeFieldsEq : List (String × WType) → List (String × WType) → Bool
  | [], [] => true
  | (k1, v1) :: r1, (k2, v2) :: r2 => k1 == k2 && wtypeEq v1 v2 && wtypeFieldsEq r1 r2
  | _, _ => false

end

/-- `wtypes.void_wtype`. -/
def void_wtype : WType := .base "void" none false true

/-- `wtypes.bool_wtype`. -/
def bool_wtype : WType := .base "bool" (some .uint64) false true

/-- `wtypes.uint64_wtype`. -/
def uint64_wtype : WType := .base "uint64" (some .uint64) false true

/-- `wtypes.biguint_wtype`. -/
def biguint_wtype : WType := .base "biguint" (some .bytes) false true

/-- `wtypes.bytes_wtype`. -/
def bytes_wtype : WType := .base "bytes" (some .bytes) false true

/-- `wtypes.string_wtype`. -/
def string_wtype : WType := .base "string" (some .bytes) false true

/-- `wtypes.account_wtype`. -/
def account_wtype : WType := .base "account" (some .bytes) false true

/-- `wtypes.arc4_bool_wtype`. -/
def arc4_bool_wtype : WType := .arc4Plain "arc4.bool" "bool" true (some bool_wtype)

/-- `WStructType.__init__`: non-empty fields, no `void` field. -/
def mkWStructType (fields : List (String × WType)) (name : String) (immutable : Bool) :
    Except String WType :=
  if fields.isEmpty then .error "struct needs fields"
  else if fields.any (fun f => wtypeEq f.2 void_wtype) then
    .error "struct should not contain void types"
  else .ok (.wstruct name fields immutable)

/-- `WArray.__init__`: element may not be `void`; the name is derived. -/
def mkWArray (element_type : WType) : Except String WType :=
  if wtypeEq element_type void_wtype then .error "array element type cannot be void"
  else .ok (.warray ("array<" ++ element_type.name ++ ">") element_type)

/-- `WTuple.__init__`: non-empty types, no `void`; the name joins the
component names. -/
def mkWTuple (types : List WType) : Except String WType :=
  if types.isEmpty then .error "tuple needs types"
  else if types.any (fun t => wtypeEq t void_wtype) then
    .error "tuple should not contain void types"
  else .ok (.wtuple ("tuple<" ++ String.intercalate "," (types.map WType.name) ++ ">") types)

/-- `ARC4UIntN.__init__`: bit size a multiple of 8 within 8–512, decode
type `uint64` only up to 64 bits, otherwise `biguint`; the canonical name
always uses the default `uintN` spelling while `arc4_name` takes the
alias.  (`"TODO"` is the source's literal `InternalError` message.) -/
def mkARC4UIntN (n : Nat) (decode_type : WType) (alias_name : Option String) :
    Except String WType :=
  if n % 8 ≠ 0 then .error "Bit size must be multiple of 8"
  else if ¬(8 ≤ n ∧ n ≤ 512) then .error "Bit size must be between 8 and 512 inclusive"
  else if wtypeEq decode_type uint64_wtype ∧ 64 < n then .error "TODO"
  else if ¬(wtypeEq decode_type uint64_wtype ∨ wtypeEq decode_type biguint_wtype) then
    .error "TODO"
  else
    .ok (.arc4UIntN ("arc4.uint" ++ toString n) (alias_name.getD ("uint" ++ toString n)) n
      decode_type)

/-- `ARC4UFixedNxM.__init__`. -/
def mkARC4UFixedNxM (bits precision : Nat) : Except String WType :=
  if bits % 8 ≠ 0 then .error "Bit size must be multiple of 8"
  else if ¬(8 ≤ bits ∧ bits ≤ 512) then .error "Bit size must be between 8 and 512 inclusive"
  else if ¬(1 ≤ precision ∧ precision ≤ 160) then
    .error "Precision must be between 1 and 160 inclusive"
  else
    let arc4_name := "ufixed" ++ toString bits ++ "x" ++ toString precision
    .ok (.arc4UFixedNxM ("arc4." ++ arc4_name) arc4_name bits precision)

/-- `ARC4Tuple.__init__`: non-empty, every component an ARC4 type; the
tuple is immutable exactly when every component is (mutating an item of an
ARC4-encoded value mutates the whole value); the decode type is the native
`WTuple` over the same components. -/
def mkARC4Tuple (types : List WType) : Except String WType :=
  if types.isEmpty then .error "ARC4 Tuple cannot be empty"
  else if ¬(types.all WType.isARC4) then
    .error "Invalid ARC4 Tuple type: type at some index is not an ARC4 encoded type"
  else
    let immutable := types.all WType.immutable
    let name := "arc4.tuple<" ++ String.intercalate "," (types.map WType.name) ++ ">"
    let arc4_name :=
      "(" ++ String.intercalate "," (types.map (fun t => (WType.arc4_name t).getD "")) ++ ")"
    match mkWTuple types with
    | .error e => .error e
    | .ok native_type => .ok (.arc4Tuple name arc4_name types immutable native_type)

/-- `ARC4DynamicArray.__init__`: ARC4 element required; `arc4_name` is the
alias if given, else `element[]`; `decode_type` is the optional native
type; `immutable` defaults to `False` at call sites that omit it. -/
def mkARC4DynamicArray (element_type : WType) (alias_name : Option String)
    (native_type : Option WType) (immutable : Bool) : Except String WType :=
  if ¬element_type.isARC4 then .error "ARC4 arrays must have ARC4 encoded element type"
  else
    .ok (.arc4DynamicArray ("arc4.dynamic_array<" ++ element_type.name ++ ">")
      (alias_name.getD ((element_type.arc4_name).getD "" ++ "[]"))
      element_type native_type immutable)

/-- `ARC4StaticArray.__init__`: ARC4 element and non-negative size. -/
def mkARC4StaticArray (element_type : WType) (array_size : Int) (alias_name : Option String)
    (native_type : Option WType) (immutable : Bool) : Except String WType :=
  if ¬element_type.isARC4 then .error "ARC4 arrays must have ARC4 encoded element type"
  else if array_size < 0 then .error "ARC4 static array size must be non-negative"
  else
    .ok (.arc4StaticArray
      ("arc4.static_array<" ++ element_type.name ++ ", " ++ toString array_size ++ ">")
      (alias_name.getD ((element_type.arc4_name).getD "" ++ "[" ++ toString array_size ++ "]"))
      element_type array_size.toNat native_type immutable)

/-- `ARC4Struct.__init__`: non-empty fields, every field an ARC4 type; the
requested immutability is weakened by every field's immutability; the
`arc4_name` is that of the `ARC4Tuple` over the field types; `decode_type`
is always `None`. -/
def mkARC4Struct (fields : List (String × WType)) (name : String) (immutable : Bool) :
    Except String WType :=
  if fields.isEmpty then .error "arc4.Struct needs at least one element"
  else if ¬(fields.all fun f => f.2.isARC4) then
    .error "Invalid ARC4 Struct declaration, some fields are not ARC4 encoded types"
  else
    let immutable := immutable && fields.all fun f => f.2.immutable
    match mkARC4Tuple (fields.map Prod.snd) with
    | .error e => .error e
    | .ok t => .ok (.arc4Struct name ((t.arc4_name).getD "") fields immutable)

/-- `wtypes.arc4_byte_alias`: `ARC4UIntN(n=8, alias="byte",
decode_type=uint64_wtype)`. -/
def arc4_byte_alias : WType := .arc4UIntN "arc4.uint8" "byte" 8 uint64_wtype

/-- The unaliased `arc4.uint8`, as produced by `ARC4UIntN(8, ...)` with no
alias (for example by `arc4_to_pytype("uint8")`). -/
def arc4_uint8_wtype : WType := .arc4UIntN "arc4.uint8" "uint8" 8 uint64_wtype

/-- The unaliased `arc4.uint64`, as `avm_to_arc4_equivalent_type` and the
signature parser produce it. -/
def arc4_uint64_wtype : WType := .arc4UIntN "arc4.uint64" "uint64" 64 uint64_wtype

/-- `wtypes.arc4_string_wtype`: dynamic array of `byte` aliased `string`,
decoding to the native `string`, immutable. -/
def arc4_string_wtype : WType :=
  .arc4DynamicArray "arc4.dynamic_array<arc4.uint8>" "string" arc4_byte_alias
    (some string_wtype) true

/-- `wtypes.arc4_address_wtype`: static array of 32 `byte` aliased
`address`, decoding to the native `account`, immutable. -/
def arc4_address_wtype : WType :=
  .arc4StaticArray "arc4.static_array<arc4.uint8, 32>" "address" arc4_byte_alias 32
    (some account_wtype) true

/-- The module-level constants really are the values of the corresponding
constructor calls in the source. -/
example :
    mkARC4UIntN 8 uint64_wtype (some "byte") = .ok arc4_byte_alias ∧
    mkARC4UIntN 8 uint64_wtype none = .ok arc4_uint8_wtype ∧
    mkARC4UIntN 64 uint64_wtype none = .ok arc4_uint64_wtype ∧
    mkARC4DynamicArray arc4_byte_alias (some "string") (some string_wtype) true
      = .ok arc4_string_wtype ∧
    mkARC4StaticArray arc4_byte_alias 32 (some "address") (some account_wtype) true
      = .ok arc4_address_wtype := by
  refine ⟨?_, ?_, ?_, ?_, ?_⟩ <;>
    simp [mkARC4UIntN, mkARC4DynamicArray, mkARC4StaticArray, wtypeEq, uint64_wtype,
      biguint_wtype, arc4_byte_alias, arc4_uint8_wtype, arc4_uint64_wtype, arc4_string_wtype,
      arc4_address_wtype, WType.isARC4, WType.arc4_name, WType.name] <;>
    decide

/-- `avm_to_arc4_equivalent_type(bytes_wtype)`: the dynamic array of
`byte` with native type `bytes` and default (`False`) immutability. -/
def arc4_bytes_wtype : WType :=
  .arc4DynamicArray "arc4.dynamic_array<arc4.uint8>" "byte[]" arc4_byte_alias
    (some bytes_wtype) false

/-- C3 counterexample: `arc4_string_wtype` and the ARC4 equivalent of
`bytes` (both produced by source-level constructor calls) have the same
canonical name `arc4.dynamic_array<arc4.uint8>` but differ in decode type
and immutability, so structural equality fails although the names agree —
refuting the claimed equivalence in the right-to-left direction. -/
theorem wtype_name_eq_counterexample :
    mkARC4DynamicArray arc4_byte_alias none (some bytes_wtype) false = .ok arc4_bytes_wtype ∧
    arc4_string_wtype.name = arc4_bytes_wtype.name ∧
    wtypeEq arc4_string_wtype arc4_bytes_wtype = false := by
  refine ⟨rfl, rfl, ?_⟩
  simp [wtypeEq, wtypeOptEq, arc4_string_wtype, arc4_bytes_wtype]

/-- C3 amended: structural equality of wtypes (which excludes the ARC4
canonical name `arc4_name`, so aliases such as `arc4.byte` and
`arc4.uint8` compare equal) implies equality of the canonical names; the
converse fails (see the counterexample). -/
theorem wtype_eq_implies_name_eq (a b : WType) (h : wtypeEq a b = true) :
    a.name = b.name := by
  cases a <;> cases b <;> simp_all [wtypeEq, WType.name]

/-- Witness for the amended C3: the aliases `arc4.byte` and `arc4.uint8`
are structurally equal, hence share their canonical name. -/
theorem wtype_eq_implies_name_eq_witness :
    wtypeEq arc4_byte_alias arc4_uint8_wtype = true ∧
    arc4_byte_alias.name = arc4_uint8_wtype.name :=
  ⟨by simp [wtypeEq, arc4_byte_alias, arc4_uint8_wtype, uint64_wtype],
   wtype_eq_implies_name_eq _ _
     (by simp [wtypeEq, arc4_byte_alias, arc4_uint8_wtype, uint64_wtype])⟩

/-- C6: a successfully constructed `ARC4Struct` is immutable exactly when
it was requested immutable *and* every field type is immutable; a
successfully constructed `ARC4Tuple` is immutable exactly when every
component type is. -/
theorem arc4_aggregate_immutable_conjunction :
    (∀ (fields : List (String × WType)) (name : String) (req : Bool) (w : WType),
        mkARC4Struct fields name req = .ok w →
        w.immutable = (req && fields.all fun f => f.2.immutable)) ∧
    (∀ (types : List WType) (w : WType),
        mkARC4Tuple types = .ok w →
        w.immutable = types.all WType.immutable) := by
  constructor
  · intro fields name req w h
    unfold mkARC4Struct at h
    split_ifs at h <;> try simp at h
    revert h
    cases htup : mkARC4Tuple (fields.map Prod.snd) <;> intro h <;> simp at h
    subst h
    rfl
  · intro types w h
    unfold mkARC4Tuple at h
    split_ifs at h <;> try simp at h
    revert h
    cases htup : mkWTuple types <;> intro h <;> simp at h
    subst h
    rfl

/-- The struct the C6 witness builds: declared immutable but holding one
mutable ARC4 field, so the result is mutable. -/
def c6StructW : WType := .arc4Struct "MyStruct" "(byte[])" [("x", arc4_bytes_wtype)] false

/-- The tuple the C6 witness builds: one mutable and one immutable
component, so the tuple is mutable. -/
def c6TupleW : WType :=
  .arc4Tuple "arc4.tuple<arc4.dynamic_array<arc4.uint8>,arc4.bool>" "(byte[],bool)"
    [arc4_bytes_wtype, arc4_bool_wtype] false
    (.wtuple "tuple<arc4.dynamic_array<arc4.uint8>,arc4.bool>"
      [arc4_bytes_wtype, arc4_bool_wtype])

/-- Witness for C6 at concrete inputs: a struct declared immutable with a
mutable ARC4 field comes out mutable, and a mixed tuple likewise. -/
theorem arc4_aggregate_immutable_conjunction_witness :
    mkARC4Struct [("x", arc4_bytes_wtype)] "MyStruct" true = .ok c6StructW ∧
    c6StructW.immutable = (true && [("x", arc4_bytes_wtype)].all fun f => f.2.immutable) ∧
    c6StructW.immutable = false ∧
    mkARC4Tuple [arc4_bytes_wtype, arc4_bool_wtype] = .ok c6TupleW ∧
    c6TupleW.immutable = [arc4_bytes_wtype, arc4_bool_wtype].all WType.immutable :=
  ⟨by simp [mkARC4Struct, mkARC4Tuple, mkWTuple, wtypeEq, c6StructW, c6TupleW,
      arc4_bytes_wtype, arc4_bool_wtype, arc4_byte_alias, void_wtype, bool_wtype,
      WType.isARC4, WType.arc4_name, WType.immutable, WType.name] <;> decide,
   arc4_aggregate_immutable_conjunction.1 [("x", arc4_bytes_wtype)] "MyStruct" true c6StructW
     (by simp [mkARC4Struct, mkARC4Tuple, mkWTuple, wtypeEq, c6StructW,
        arc4_bytes_wtype, arc4_byte_alias, void_wtype,
        WType.isARC4, WType.arc4_name, WType.immutable, WType.name] <;> decide),
   by simp [c6StructW, WType.immutable],
   by simp [mkARC4Tuple, mkWTuple, wtypeEq, c6TupleW, arc4_bytes_wtype, arc4_bool_wtype,
      arc4_byte_alias, void_wtype, bool_wtype,
      WType.isARC4, WType.arc4_name, WType.immutable, WType.name] <;> decide,
   arc4_aggregate_immutable_conjunction.2 [arc4_bytes_wtype, arc4_bool_wtype] c6TupleW
     (by simp [mkARC4Tuple, mkWTuple, wtypeEq, c6TupleW, arc4_bytes_wtype, arc4_bool_wtype,
        arc4_byte_alias, void_wtype, bool_wtype,
        WType.isARC4, WType.arc4_name, WType.immutable, WType.name] <;> decide)⟩

/-- C10: every successfully constructed `ARC4Tuple` has a non-null decode
target, namely the native `WTuple` over the same component types (which
always constructs successfully as well). -/
theorem arc4_tuple_decode_native :
    ∀ (types : List WType) (w : WType), mkARC4Tuple types = .ok w →
      ∃ native, mkWTuple types = .ok native ∧ w.decode_type = some native := by
  intro types w h
  unfold mkARC4Tuple at h
  split_ifs at h <;> try simp at h
  revert h
  cases htup : mkWTuple types <;> intro h <;> simp at h
  subst h
  exact ⟨_, rfl, rfl⟩

/-- The tuple the C10 witness builds. -/
def c10TupleW : WType :=
  .arc4Tuple "arc4.tuple<arc4.bool>" "(bool)" [arc4_bool_wtype] true
    (.wtuple "tuple<arc4.bool>" [arc4_bool_wtype])

/-- Witness for C10 at a concrete input. -/
theorem arc4_tuple_decode_native_witness :
    ∃ native, mkWTuple [arc4_bool_wtype] = .ok native ∧
      c10TupleW.decode_type = some native :=
  arc4_tuple_decode_native [arc4_bool_wtype] c10TupleW
    (by simp [mkARC4Tuple, mkWTuple, wtypeEq, c10TupleW, arc4_bool_wtype, void_wtype,
       bool_wtype, WType.isARC4, WType.arc4_name, WType.immutable, WType.name] <;> decide)

/-! ## ARC4 method signatures (`puyapy/awst_build/eb/arc4/_utils.py`) -/

/-- The two `CodeError` raises of `_split_signature`. -/
inductive SigError where
  | argsNotWellDefined (name remaining : String)
  | textAfterReturns (name args returns remaining : String)
deriving DecidableEq

/-- The diagnostic `_split_signature` can log without raising: the final
name is empty or fails the name pattern. -/
inductive SigDiag where
  | invalidName (name : String)
deriving DecidableEq

/-- Python string slicing `s[a:b]` (for the in-bounds slices the scanner
takes). -/
def sliceStr (s : String) (a b : Nat) : String :=
  String.mk ((s.toList.drop a).take (b - a))

/-- The scanner state of `_split_signature`: paren depth, index just past
the last consumed delimiter, and the three output pieces. -/
structure SplitState where
  level : Int
  last_idx : Nat
  name : String
  args : Option String
  returns : Option String

/-- One character step of the `_split_signature` scan: the first
depth-1 `(` ends the name, each balanced `(…)` at depth 0 becomes the
arg-list (first) or the parenthesised return (second). -/
def splitSigStep (signature : String) (st : SplitState) (it : Nat × Char) : SplitState :=
  let (idx, tok) := it
  if tok = '(' then
    let level := st.level + 1
    if level = 1 then
      { st with
        level := level,
        name := if st.name = "" then sliceStr signature 0 idx else st.name,
        last_idx := idx + 1 }
    else { st with level := level }
  else if tok = ')' then
    let level := st.level - 1
    if level = 0 then
      match st.args with
      | none =>
        { st with
          level := level,
          args := some (sliceStr signature st.last_idx idx),
          last_idx := idx + 1 }
      | some _ =>
        match st.returns with
        | none =>
          { st with
            level := level,
            returns := some (sliceStr signature (st.last_idx - 1) (idx + 1)),
            last_idx := idx + 1 }
        | some _ => { st with level := level, last_idx := idx + 1 }
    else { st with level := level }
  else st

/-- The source's `_VALID_NAME_PATTERN`, `^[_A-Za-z][A-Za-z0-9_]*$`
(ASCII classes; the `$`-before-trailing-newline quirk of Python regexes
is not exercised by any theorem below). -/
def validMethodName (s : String) : Bool :=
  match s.toList with
  | [] => false
  | c :: rest =>
    (c = '_' || c.isAlpha) && rest.all (fun d => d = '_' || d.isAlpha || d.isDigit)

/-- `_split_signature`: scan the signature, then classify any remaining
suffix — it becomes the name if the name is still empty, raises
"args not well defined" if no arg-list was seen, raises
"text after returns" if a (non-empty) return was already seen, and
otherwise becomes the return type.  An invalid final name is logged as an
error diagnostic but the function still returns its triple. -/
def split_signature (signature : String) :
    Except SigError (Option SigDiag × String × Option String × Option String) :=
  let st := (signature.toList.enum).foldl (splitSigStep signature) ⟨0, 0, "", none, none⟩
  let afterRemaining : Except SigError SplitState :=
    if st.last_idx < signature.length then
      let remaining := sliceStr signature st.last_idx signature.length
      if st.name = "" then .ok { st with name := remaining }
      else if st.args = none then .error (.argsNotWellDefined st.name remaining)
      else if (st.returns).getD "" ≠ "" then
        .error (.textAfterReturns st.name ((st.args).getD "") ((st.returns).getD "") remaining)
      else .ok { st with returns := some remaining }
    else .ok st
  match afterRemaining with
  | .error e => .error e
  | .ok st =>
    let diag :=
      if st.name = "" || ¬ validMethodName st.name then some (SigDiag.invalidName st.name)
      else none
    .ok (diag, st.name, st.args, st.returns)

/-- Modelled from the spec: `arc4_util.split_tuple_types` splits an ARC4
tuple-type string on top-level commas, respecting nested parentheses. -/
def split_tuple_types (types : String) : List String :=
  let fin := types.toList.foldl
    (fun (st : Int × List Char × List (List Char)) c =>
      let (depth, cur, acc) := st
      if c = ',' ∧ depth = 0 then (depth, [], acc ++ [cur])
      else if c = '(' then (depth + 1, cur ++ [c], acc)
      else if c = ')' then (depth - 1, cur ++ [c], acc)
      else (depth, cur ++ [c], acc))
    (0, [], [])
  (fin.2.2 ++ [fin.2.1]).map String.mk

/-- All-decimal-digit parse of a character list. -/
def parseDigits : List Char → Option Nat
  | [] => none
  | cs =>
    if cs.all Char.isDigit then
      some (cs.foldl (fun acc c => acc * 10 + (c.toNat - '0'.toNat)) 0)
    else none

/-- Modelled from the spec: the atomic fragment of
`arc4_utils.arc4_to_pytype` needed here — canonical ARC4 names map to
their wtypes (`uintN` decodes to `u64` for `n ≤ 64`, else `biguint`;
`string` is the aliased dynamic byte array). -/
def arc4_to_wtype (s : String) : Except String WType :=
  if s = "bool" then .ok arc4_bool_wtype
  else if s = "byte" then .ok arc4_byte_alias
  else if s = "string" then .ok arc4_string_wtype
  else if s = "address" then .ok arc4_address_wtype
  else if s.toList.take 4 = "uint".toList then
    match parseDigits (s.toList.drop 4) with
    | some n => mkARC4UIntN n (if n ≤ 64 then uint64_wtype else biguint_wtype) none
    | none => .error ("unknown ARC4 type " ++ s)
  else .error ("unknown ARC4 type " ++ s)

/-- `ARC4Signature` at the wtype level: name, argument types, and return
type (`none` models the `None`/`void` return). -/
structure ARC4Signature where
  method_name : String
  arg_types : List WType
  return_type : Option WType

/-- Modelled from the spec: `arc4_utils.pytype_to_arc4` yields the ARC4
canonical name of an ARC4 type and `"void"` for the `None` return. -/
def pytype_to_arc4 : Option WType → String
  | none => "void"
  | some t => (t.arc4_name).getD ""

/-- `ARC4Signature.method_selector`: the canonical string
`name(t1,t2,…)r`. -/
def method_selector (sig : ARC4Signature) : String :=
  sig.method_name ++ "(" ++
    String.intercalate "," (sig.arg_types.map (fun t => pytype_to_arc4 (some t))) ++ ")" ++
    pytype_to_arc4 sig.return_type

/-- Modelled from the spec: the 4-byte ABI method selector is the first 4
bytes of the SHA-512/256 of the canonical signature string. -/
def abi_method_selector (sig : String) : List Nat :=
  (sha512_256 (sig.toList.map Char.toNat)).take 4

set_option maxRecDepth 1000000 in
/-- C4: splitting `"hello(uint64,string)uint64"` yields name `hello`,
arg-list text `uint64,string` (whose pieces parse to the ARC4 `uint64`
and `string` wtypes) and return text `uint64`; the resulting signature's
`method_selector` is the canonical string itself, and its 4-byte ABI
selector is the first 4 bytes of its SHA-512/256 hash, `92 2b 09 03`. -/
theorem hello_signature_parses :
    split_signature "hello(uint64,string)uint64"
      = .ok (none, "hello", some "uint64,string", some "uint64") ∧
    split_tuple_types "uint64,string" = ["uint64", "string"] ∧
    arc4_to_wtype "uint64" = .ok arc4_uint64_wtype ∧
    arc4_to_wtype "string" = .ok arc4_string_wtype ∧
    method_selector ⟨"hello", [arc4_uint64_wtype, arc4_string_wtype], some arc4_uint64_wtype⟩
      = "hello(uint64,string)uint64" ∧
    abi_method_selector "hello(uint64,string)uint64"
      = (sha512_256 ("hello(uint64,string)uint64".toList.map Char.toNat)).take 4 ∧
    abi_method_selector "hello(uint64,string)uint64" = [0x92, 0x2b, 0x09, 0x03] := by
  refine ⟨rfl, rfl, ?_, rfl, rfl, rfl, by decide⟩
  simp [arc4_to_wtype, mkARC4UIntN, wtypeEq, parseDigits, uint64_wtype, biguint_wtype,
    arc4_uint64_wtype] <;> decide

set_option maxRecDepth 1000000 in
/-- C5 counterexample: parsing `"(a)b(c)"` does not raise any `CodeError`
at all — in particular none beginning "invalid signature, text after
returns"; the function returns normally. -/
theorem split_signature_ab_c_no_error :
    ¬ ∃ e, split_signature "(a)b(c)" = Except.error e := by
  rintro ⟨e, h⟩
  have heq : split_signature "(a)b(c)"
      = .ok (some (.invalidName "(a)b"), "(a)b", some "a", some "(c)") := rfl
  rw [heq] at h
  exact Except.noConfusion h

set_option maxRecDepth 1000000 in
/-- C5 amended: parsing `"(a)b(c)"` raises no `CodeError`; because the
signature starts with `(`, the name is still empty at the second `(`, so
the scanner takes the name to be `(a)b`, the args `a` and the returns
`(c)`, and the only diagnostic is the logged error
"invalid signature: name=..." about the name failing the identifier
pattern; the triple is still returned so compilation continues. -/
theorem split_signature_ab_c_result :
    split_signature "(a)b(c)"
      = .ok (some (.invalidName "(a)b"), "(a)b", some "a", some "(c)") := rfl

/-! ## BigUInt expression building (`puya/awst_build/eb/biguint.py`) -/

/-- The builder-level binary operators (`BuilderBinaryOp`; the `eb`
interface module is outside the packaged sources, so the member list is
modelled from the spec's operator treatment — only `div` and `floor_div`
matter to the claims). -/
inductive BuilderBinaryOp where
  | add
  | sub
  | mult
  | div
  | floor_div
  | mod
  | power
  | lshift
  | rshift
  | bit_or
  | bit_xor
  | bit_and
deriving DecidableEq

/-- The AWST `BigUIntBinaryOperator` members.  Modelled from the spec:
the AVM-legal BigUInt arithmetic, with no true-division member — "only
the truncating division operator (//) is supported". -/
inductive BigUIntBinaryOperator where
  | add
  | sub
  | mult
  | floor_div
  | mod
  | bit_or
  | bit_xor
  | bit_and
deriving DecidableEq

/-- Modelled from the spec: the enum conversion
`BigUIntBinaryOperator(operator.value)` as a partial map (a missing
member raises `ValueError` in Python, hence `none`). -/
def bigUIntOperatorOfBuilder : BuilderBinaryOp → Option BigUIntBinaryOperator
  | .add => some .add
  | .sub => some .sub
  | .mult => some .mult
  | .floor_div => some .floor_div
  | .mod => some .mod
  | .bit_or => some .bit_or
  | .bit_xor => some .bit_xor
  | .bit_and => some .bit_and
  | _ => none

/-- The AWST expression fragment the BigUInt builder produces:
variables, `BigUIntConstant`, the `itob`-conversion of a UInt64 operand
(`_uint64_to_biguint`), and `BigUIntBinaryOperation`. -/
inductive Expr where
  | evar (nm : String)
  | bigUIntConstant (value : Int)
  | itobBigUInt (e : Expr)
  | bigUIntBinaryOperation (left : Expr) (op : BigUIntBinaryOperator) (right : Expr)
deriving DecidableEq

/-- The `BigUIntAugmentedAssignment` statement. -/
structure BigUIntAugmentedAssignment where
  target : Expr
  op : BigUIntBinaryOperator
  value : Expr
deriving DecidableEq

/-- The other operand as the builder sees it after pytype dispatch: a
BigUInt expression, a UInt64 expression, an uncommitted int literal, or
a value of any other type. -/
inductive BOperand where
  | biguintVal (e : Expr)
  | uint64Val (e : Expr)
  | intLiteral (value : Int)
  | otherType
deriving DecidableEq

/-- `resolve_literal` against `BigUIntTypeBuilder`: `convert_literal`
turns an int literal into a `BigUIntConstant`; anything else passes
through unchanged. -/
def resolveBigUIntLiteral : BOperand → BOperand
  | .intLiteral v => .biguintVal (.bigUIntConstant v)
  | o => o

/-- The diagnostic `_translate_biguint_math_operator` logs for `/` (the
source concatenates two string pieces, trailing space included). -/
def truncatingDivisionMessage : String :=
  "To maintain semantic compatibility with Python, " ++
    "only the truncating division operator (//) is supported "

/-- `_translate_biguint_math_operator`: `/` logs the error diagnostic
and is replaced by `//` so that traversal continues; an operator with no
BigUInt counterpart raises `CodeError`. -/
def translate_biguint_math_operator (op : BuilderBinaryOp) :
    List String × Except String BigUIntBinaryOperator :=
  let step :=
    if op = BuilderBinaryOp.div then ([truncatingDivisionMessage], BuilderBinaryOp.floor_div)
    else ([], op)
  match bigUIntOperatorOfBuilder step.2 with
  | some o => (step.1, .ok o)
  | none => (step.1, .error "Unsupported BigUInt math operator")

/-- `BigUIntExpressionBuilder.binary_op`: resolve the other operand's
literal, accept BigUInt directly and UInt64 via `itob`, return the
`NotImplemented` sentinel (`none`) otherwise; swap sides when `reverse`;
translate the operator; build the `BigUIntBinaryOperation`. -/
def biguint_binary_op (self : Expr) (other : BOperand) (op : BuilderBinaryOp)
    (reverse : Bool) : Option (List String × Except String Expr) :=
  let other_expr? :=
    match resolveBigUIntLiteral other with
    | .biguintVal e => some e
    | .uint64Val e => some (Expr.itobBigUInt e)
    | _ => none
  match other_expr? with
  | none => none
  | some other_expr =>
    let lhs := if reverse then other_expr else self
    let rhs := if reverse then self else other_expr
    some (match translate_biguint_math_operator op with
      | (logs, .ok o) => (logs, .ok (.bigUIntBinaryOperation lhs o rhs))
      | (logs, .error e) => (logs, .error e))

/-- `BigUIntExpressionBuilder.augmented_assignment`: same operand
resolution, but a right-hand side of any other type raises a `CodeError`
instead of producing the `NotImplemented` sentinel. -/
def biguint_augmented_assignment (target : Expr) (rhs : BOperand) (op : BuilderBinaryOp) :
    List String × Except String BigUIntAugmentedAssignment :=
  let value? :=
    match resolveBigUIntLiteral rhs with
    | .biguintVal e => some e
    | .uint64Val e => some (Expr.itobBigUInt e)
    | _ => none
  match value? with
  | none => ([], .error "Invalid operand type for augmented assignment with BigUInt")
  | some value =>
    match translate_biguint_math_operator op with
    | (logs, .ok o) => (logs, .ok ⟨target, o, value⟩)
    | (logs, .error e) => (logs, .error e)

/-- C7: applying `/` where one operand is a BigUInt — through
`binary_op` in either orientation (including a UInt64 other operand) or
through `augmented_assignment` — logs exactly the "only the truncating
division operator (//) is supported" diagnostic and still builds the
resulting node with `floor_div` instead of aborting, so compilation
continues with floor-division semantics. -/
theorem biguint_true_division_floor_div :
    ∀ (self e : Expr) (reverse : Bool),
      biguint_binary_op self (.biguintVal e) .div reverse
        = some ([truncatingDivisionMessage],
            .ok (.bigUIntBinaryOperation (if reverse then e else self) .floor_div
                  (if reverse then self else e))) ∧
      biguint_binary_op self (.uint64Val e) .div reverse
        = some ([truncatingDivisionMessage],
            .ok (.bigUIntBinaryOperation (if reverse then .itobBigUInt e else self) .floor_div
                  (if reverse then self else .itobBigUInt e))) ∧
      biguint_augmented_assignment self (.biguintVal e) .div
        = ([truncatingDivisionMessage], .ok ⟨self, .floor_div, e⟩) := by
  intro self e reverse
  refine ⟨?_, ?_, rfl⟩ <;> cases reverse <;> rfl

/-! ## ARC4 tuple indexing (`puya/awst_build/eb/arc4/tuple.py`) -/

/-- The index argument after literal matching: a compile-time int
literal, or any other builder (which the match's catch-all rejects). -/
inductive TIndexArg where
  | intLiteral (value : Int)
  | nonLiteral
deriving DecidableEq

/-- `TupleItemExpression(base=…, index=…)` as the index method builds
it. -/
structure TupleItemExpression (β : Type) where
  base : β
  index : Int
deriving DecidableEq

/-- Python sequence indexing `items[i]`: a negative index counts from
the end; out of range raises `IndexError` (`none`). -/
def pySeqGet (items : List α) (i : Int) : Option α :=
  let j := if i < 0 then i + items.length else i
  if j < 0 then none else items.get? j.toNat

/-- `ARC4TupleExpressionBuilder.index`: anything but an int literal is a
`CodeError`; `self.pytype.items[index_value]` raising `IndexError` is
re-raised as the "Tuple index out of bounds" `CodeError`; otherwise the
result is the builder for the selected item type over the
`TupleItemExpression` with the literal (possibly negative) index. -/
def arc4_tuple_index (items : List α) (base : β) :
    TIndexArg → Except String (α × TupleItemExpression β)
  | .nonLiteral => .error "arc4.Tuple can only be indexed by int constants"
  | .intLiteral i =>
    match pySeqGet items i with
    | none => .error "Tuple index out of bounds"
    | some item_typ => .ok (item_typ, ⟨base, i⟩)

/-- C8: indexing an ARC4 tuple with anything other than a compile-time
int literal raises a `CodeError`; an int literal outside the range of
the tuple's item types (outside `[-n, n)` in Python sequence terms)
raises the `CodeError` "Tuple index out of bounds"; an in-range literal
`i` yields the `TupleItemExpression` over the tuple with index `i`,
typed by the `i`-th item type (`(n+i)`-th for negative `i`). -/
theorem arc4_tuple_indexing (items : List α) (base : β) :
    arc4_tuple_index items base .nonLiteral
      = .error "arc4.Tuple can only be indexed by int constants" ∧
    (∀ i : Int, i < -(items.length : Int) ∨ (items.length : Int) ≤ i →
      arc4_tuple_index items base (.intLiteral i) = .error "Tuple index out of bounds") ∧
    (∀ i : Nat, i < items.length →
      ∃ t, items.get? i = some t ∧
        arc4_tuple_index items base (.intLiteral (i : Int)) = .ok (t, ⟨base, (i : Int)⟩)) ∧
    (∀ i : Nat, 0 < i → i ≤ items.length →
      ∃ t, items.get? (items.length - i) = some t ∧
        arc4_tuple_index items base (.intLiteral (-(i : Int)))
          = .ok (t, ⟨base, -(i : Int)⟩)) := by
  refine ⟨rfl, ?_, ?_, ?_⟩
  · intro i hi
    have hnone : pySeqGet items i = none := by
      unfold pySeqGet
      rcases hi with hi | hi
      · have h1 : i < 0 := by omega
        have h2 : i + (items.length : Int) < 0 := by omega
        simp [h1, h2]
      · have h1 : ¬ i < 0 := by omega
        simp [h1, List.get?_eq_none]
        omega
    simp only [arc4_tuple_index]
    rw [hnone]
  · intro i hi
    refine ⟨items.get ⟨i, hi⟩, List.get?_eq_get hi, ?_⟩
    have hsome : pySeqGet items (i : Int) = some (items.get ⟨i, hi⟩) := by
      unfold pySeqGet
      have h0 : ¬((i : Int) < 0) := by omega
      simp [h0, List.get?_eq_get hi]
    simp only [arc4_tuple_index]
    rw [hsome]
  · intro i h0 hn
    have hidx : items.length - i < items.length := by omega
    refine ⟨items.get ⟨items.length - i, hidx⟩, List.get?_eq_get hidx, ?_⟩
    have hsome : pySeqGet items (-(i : Int)) = some (items.get ⟨items.length - i, hidx⟩) := by
      unfold pySeqGet
      have hneg : -(i : Int) < 0 := by omega
      have hj : ¬(-(i : Int) + (items.length : Int) < 0) := by omega
      have htn : (-(i : Int) + (items.length : Int)).toNat = items.length - i := by omega
      simp [hneg, hj, htn, List.get?_eq_get hidx]
    simp only [arc4_tuple_index]
    rw [hsome]

/-- Witness for C8 on a concrete two-element tuple: index 5 is out of
bounds, index 1 selects the second item, index −1 likewise. -/
theorem arc4_tuple_indexing_witness :
    arc4_tuple_index ["t0", "t1"] "base" (.intLiteral 5)
      = .error "Tuple index out of bounds" ∧
    (∃ t, ["t0", "t1"].get? 1 = some t ∧
      arc4_tuple_index ["t0", "t1"] "base" (.intLiteral ((1 : Nat) : Int))
        = .ok (t, ⟨"base", ((1 : Nat) : Int)⟩)) ∧
    (∃ t, ["t0", "t1"].get? 1 = some t ∧
      arc4_tuple_index ["t0", "t1"] "base" (.intLiteral (-((1 : Nat) : Int)))
        = .ok (t, ⟨"base", -((1 : Nat) : Int)⟩)) :=
  ⟨(arc4_tuple_indexing ["t0", "t1"] "base").2.1 5 (by decide),
   (arc4_tuple_indexing ["t0", "t1"] "base").2.2.1 1 (by decide),
   (arc4_tuple_indexing ["t0", "t1"] "base").2.2.2 1 (by decide) (by decide)⟩

/-! ## MIR → TEAL lowering (`puya/teal/main.py`)

The MIR and TEAL data declarations (`puya.mir.models`,
`puya.teal.models`) and the stack simulator (`puya.teal.stack`) are not
under the packaged sources.  Modelled from the spec (§3.3, §4.4): a MIR
subroutine is a list of blocks, each with a name, entry/exit stack
heights, a carried x-stack and an ordered op list; branching ops expose
their target labels; the stack simulation lowers each MIR op to zero or
more TEAL ops while updating an opaque stack state.  The op types, the
stack state and the `begin_block`/`accept` operations are therefore type
parameters of this section, while `_lower_sub`, `_get_referenced_labels`,
`_build_teal` and `mir_to_teal` are embedded from `teal/main.py`. -/

section TealLowering

variable {MOp TOp Stack SM : Type}

/-- A MIR block (modelled from the spec). -/
structure MirBlock (MOp : Type) where
  block_name : String
  entry_stack_height : Int
  exit_stack_height : Int
  x_stack_in : List String
  ops : List MOp

/-- A MIR subroutine (modelled from the spec); `all_blocks` is its block
list in order. -/
structure MemorySubroutine (MOp : Type) where
  is_main : Bool
  signature_name : String
  all_blocks : List (MirBlock MOp)

/-- A MIR program (modelled from the spec): `main` plus the other
subroutines. -/
structure MirProgram (MOp : Type) where
  program_id : String
  main : MemorySubroutine MOp
  subroutines : List (MemorySubroutine MOp)

/-- A TEAL block (modelled from the spec): label, ops, carried x-stack,
and entry/exit stack heights (−1 = unknown). -/
structure TealBlock (TOp : Type) where
  label : String
  ops : List TOp
  x_stack : List String
  entry_stack_height : Int
  exit_stack_height : Int

/-- A TEAL subroutine (modelled from the spec). -/
structure TealSubroutine (TOp : Type) where
  is_main : Bool
  signature_name : String
  blocks : List (TealBlock TOp)

/-- A TEAL program (modelled from the spec): `main` plus the other
subroutines; `all_subroutines` is `main :: subroutines`. -/
structure TealProgram (TOp : Type) where
  program_id : String
  target_avm_version : Nat
  main : TealSubroutine TOp
  subroutines : List (TealSubroutine TOp)

variable (isBranching : MOp → Bool) (targets : MOp → List String)
variable (beginBlock : Stack → MemorySubroutine MOp → MirBlock MOp → Stack)
variable (accept : Stack → MOp → List TOp × Stack)

/-- `_get_referenced_labels`: every target of every branching op of the
subroutine (the Python set is modelled as a list queried by
membership). -/
def get_referenced_labels (subroutine : MemorySubroutine MOp) : List String :=
  subroutine.all_blocks.flatMap fun b =>
    b.ops.flatMap fun op => if isBranching op then targets op else []

/-- The per-block op loop of `_lower_sub`: lower every MIR op with the
threaded stack state, concatenating the produced TEAL ops. -/
def accept_ops (stack : Stack) (ops : List MOp) : List TOp × Stack :=
  ops.foldl
    (fun acc op =>
      let r := accept acc.2 op
      (acc.1 ++ r.1, r.2))
    ([], stack)

/-- One iteration of the `_lower_sub` loop over the enumerated MIR
blocks.  The accumulated TEAL blocks are kept in reverse order so that
the list head is the currently open block (`sub.blocks[-1]`); the `[]`
case of the match is unreachable because the first iteration always
opens a block. -/
def lower_sub_step (mir_sub : MemorySubroutine MOp) (referenced_labels : List String)
    (st : Stack × List (TealBlock TOp)) (ib : Nat × MirBlock MOp) :
    Stack × List (TealBlock TOp) :=
  let (block_idx, mir_block) := ib
  let stack := beginBlock st.1 mir_sub mir_block
  let blocks :=
    if block_idx = 0 ∨ referenced_labels.contains mir_block.block_name then
      { label :=
          if ¬(mir_sub.is_main ∧ block_idx = 0) then mir_block.block_name
          else mir_sub.signature_name,
        ops := [],
        x_stack := mir_block.x_stack_in,
        entry_stack_height := mir_block.entry_stack_height,
        exit_stack_height := -1 } :: st.2
    else st.2
  match blocks with
  | [] => (stack, [])
  | last_block :: rest =>
    let lowered := accept_ops accept stack mir_block.ops
    (lowered.2,
      { last_block with
        exit_stack_height := mir_block.exit_stack_height,
        ops := last_block.ops ++ lowered.1 } :: rest)

/-- `_lower_sub`: fold the step over the enumerated MIR blocks, starting
from a fresh stack simulation, and reverse the accumulated blocks. -/
def lower_sub (initStack : Stack) (mir_sub : MemorySubroutine MOp) : TealSubroutine TOp :=
  let referenced_labels := get_referenced_labels isBranching targets mir_sub
  let fin := (mir_sub.all_blocks.enum).foldl
    (lower_sub_step beginBlock accept mir_sub referenced_labels) (initStack, [])
  { is_main := mir_sub.is_main,
    signature_name := mir_sub.signature_name,
    blocks := fin.2.reverse }

/-- The claim-shaped description of `_lower_sub`'s block structure:
`cur` is the currently open TEAL block; a MIR block that is a branch
target opens a new TEAL block labelled by its name (the enumeration
index can no longer be 0 here), while every other MIR block appends its
lowered ops to `cur` and updates `cur`'s exit stack height. -/
def lower_spec_blocks (mir_sub : MemorySubroutine MOp) (referenced_labels : List String) :
    Stack → TealBlock TOp → List (Nat × MirBlock MOp) → List (TealBlock TOp)
  | _, cur, [] => [cur]
  | stack, cur, (block_idx, mir_block) :: rest =>
    let stack1 := beginBlock stack mir_sub mir_block
    let lowered := accept_ops accept stack1 mir_block.ops
    if block_idx = 0 ∨ referenced_labels.contains mir_block.block_name then
      cur :: lower_spec_blocks mir_sub referenced_labels lowered.2
        { label :=
            if ¬(mir_sub.is_main ∧ block_idx = 0) then mir_block.block_name
            else mir_sub.signature_name,
          ops := lowered.1,
          x_stack := mir_block.x_stack_in,
          entry_stack_height := mir_block.entry_stack_height,
          exit_stack_height := mir_block.exit_stack_height } rest
    else
      lower_spec_blocks mir_sub referenced_labels lowered.2
        { cur with
          ops := cur.ops ++ lowered.1,
          exit_stack_height := mir_block.exit_stack_height } rest

/-- The claim-shaped description of `_lower_sub`: the first MIR block
always opens a TEAL block whose label is the block name except for the
first block of `main`, which is labelled by the subroutine's signature
name; the remaining blocks follow `lower_spec_blocks`. -/
def lower_sub_spec (initStack : Stack) (mir_sub : MemorySubroutine MOp) :
    TealSubroutine TOp :=
  let referenced_labels := get_referenced_labels isBranching targets mir_sub
  { is_main := mir_sub.is_main,
    signature_name := mir_sub.signature_name,
    blocks :=
      match mir_sub.all_blocks with
      | [] => []
      | b0 :: rest =>
        let stack1 := beginBlock initStack mir_sub b0
        let lowered := accept_ops accept stack1 b0.ops
        lower_spec_blocks beginBlock accept mir_sub referenced_labels lowered.2
          { label := if mir_sub.is_main then mir_sub.signature_name else b0.block_name,
            ops := lowered.1,
            x_stack := b0.x_stack_in,
            entry_stack_height := b0.entry_stack_height,
            exit_stack_height := b0.exit_stack_height }
          (rest.enumFrom 1) }

/-- The fold of `lower_sub_step` over enumerated blocks, with `cur` the
currently open block and `done` the previously closed ones, equals the
claim-shaped recursion. -/
theorem lower_fold_eq_spec (mir_sub : MemorySubroutine MOp)
    (referenced_labels : List String) :
    ∀ (blocks : List (Nat × MirBlock MOp)) (stack : Stack) (cur : TealBlock TOp)
      (done : List (TealBlock TOp)),
      ((blocks.foldl (lower_sub_step beginBlock accept mir_sub referenced_labels)
          (stack, cur :: done)).2).reverse
        = done.reverse ++
            lower_spec_blocks beginBlock accept mir_sub referenced_labels stack cur blocks
  | [], stack, cur, done => by simp [lower_spec_blocks]
  | (block_idx, mir_block) :: rest, stack, cur, done => by
    by_cases hopen : block_idx = 0 ∨ referenced_labels.contains mir_block.block_name
    · simp only [List.foldl_cons, lower_sub_step, hopen, if_true, ite_true, List.nil_append]
      rw [lower_fold_eq_spec mir_sub referenced_labels rest _ _ (cur :: done)]
      have hopen' : block_idx = 0 ∨ mir_block.block_name ∈ referenced_labels := by
        simpa using hopen
      simp [lower_spec_blocks, hopen']
    · simp only [List.foldl_cons, lower_sub_step, hopen, if_false, ite_false]
      rw [lower_fold_eq_spec mir_sub referenced_labels rest _ _ done]
      have hopen' : ¬(block_idx = 0 ∨ mir_block.block_name ∈ referenced_labels) := by
        simpa using hopen
      simp [lower_spec_blocks, hopen']

/-- C9: lowering one MIR subroutine to TEAL opens a new TEAL block
exactly for the first MIR block and for each MIR block whose name is a
target of some branching op of the subroutine; the opened block's label
is the MIR block name, except the first block of `main`, whose label is
the subroutine's signature name; the lowered ops of every other
(fall-through, non-targeted) MIR block are appended to the previously
opened TEAL block, whose exit stack height is updated to the current MIR
block's exit height. -/
theorem lower_sub_eq_spec (initStack : Stack) (mir_sub : MemorySubroutine MOp) :
    lower_sub isBranching targets beginBlock accept initStack mir_sub
      = lower_sub_spec isBranching targets beginBlock accept initStack mir_sub := by
  unfold lower_sub lower_sub_spec
  cases hb : mir_sub.all_blocks with
  | nil => simp [hb]
  | cons b0 rest =>
    simp only [hb, List.enum_cons, List.foldl_cons]
    have hstep :
        lower_sub_step beginBlock accept mir_sub
            (get_referenced_labels isBranching targets mir_sub) (initStack, []) (0, b0)
          = ((accept_ops accept (beginBlock initStack mir_sub b0) b0.ops).2,
             [{ label := if mir_sub.is_main then mir_sub.signature_name else b0.block_name,
                ops := (accept_ops accept (beginBlock initStack mir_sub b0) b0.ops).1,
                x_stack := b0.x_stack_in,
                entry_stack_height := b0.entry_stack_height,
                exit_stack_height := b0.exit_stack_height }]) := by
      cases hm : mir_sub.is_main <;> simp [lower_sub_step, hm]
    rw [hstep, lower_fold_eq_spec beginBlock accept mir_sub
      (get_referenced_labels isBranching targets mir_sub) (rest.enumFrom 1) _ _ []]
    simp

variable (sms : TOp → List SM)

/-- The flat stack-manipulation sequence of one TEAL subroutine: every
record of every op of every block, in order. -/
def collect_sub (sub : TealSubroutine TOp) : List SM :=
  sub.blocks.flatMap fun block => block.ops.flatMap sms

/-- The `before`/`after` comprehension of `mir_to_teal`: it ranges over
`teal.subroutines`, which per the TEAL data model excludes `main`. -/
def collect_subroutines (p : TealProgram TOp) : List SM :=
  p.subroutines.flatMap (collect_sub sms)

/-- The flat sequence over every subroutine of the program, `main` first
(the order of `all_subroutines`). -/
def collect_program (p : TealProgram TOp) : List SM :=
  collect_sub sms p.main ++ collect_subroutines sms p

/-- `_build_teal`: lower `main` and the subroutines, then validate every
block of every subroutine (a validation failure raises, modelled as
`none`; the block validator lives outside the packaged sources and is a
parameter). -/
def build_teal (validate : TealBlock TOp → Bool) (initStack : Stack)
    (target_avm_version : Nat) (mir_program : MirProgram MOp) :
    Option (TealProgram TOp) :=
  let program : TealProgram TOp :=
    { program_id := mir_program.program_id,
      target_avm_version := target_avm_version,
      main := lower_sub isBranching targets beginBlock accept initStack mir_program.main,
      subroutines := mir_program.subroutines.map
        (lower_sub isBranching targets beginBlock accept initStack) }
  if (program.main :: program.subroutines).all fun s => s.blocks.all validate then
    some program
  else none

/-- `mir_to_teal`: build the TEAL program, collect `before` from its
subroutines, run `optimize_teal_program` and `combine_pushes` when the
optimization level is positive and `gather_program_constants` always,
collect `after`, and assert `before == after` (an assert failure is
`none`).  The three transforms are parameters: their code lives outside
the packaged sources. -/
def mir_to_teal [DecidableEq SM] (optimization_level : Nat)
    (optimize gather combine : TealProgram TOp → TealProgram TOp)
    (validate : TealBlock TOp → Bool) (initStack : Stack) (target_avm_version : Nat)
    (mir_program : MirProgram MOp) : Option (TealProgram TOp) :=
  match build_teal isBranching targets beginBlock accept validate initStack
      target_avm_version mir_program with
  | none => none
  | some teal =>
    let before := collect_subroutines sms teal
    let teal1 := if 0 < optimization_level then optimize teal else teal
    let teal2 := gather teal1
    let teal3 := if 0 < optimization_level then combine teal2 else teal2
    let after := collect_subroutines sms teal3
    if before = after then some teal3 else none

/-- C1: with each of the three transforms preserving the flat
stack-manipulation sequence of `main` and of the other subroutines
(modelled from the spec — the transform code is outside the packaged
sources), `mir_to_teal` returns a TEAL program (its conservation assert
passes) whose flat stack-manipulation sequence over every subroutine of
the program equals that of the TEAL program built before optimization.
The runtime assert itself compares only the non-main subroutines. -/
theorem mir_to_teal_preserves_stack_manipulations [DecidableEq SM]
    (optimization_level : Nat)
    (optimize gather combine : TealProgram TOp → TealProgram TOp)
    (hoptimize : ∀ p, collect_sub sms (optimize p).main = collect_sub sms p.main ∧
        collect_subroutines sms (optimize p) = collect_subroutines sms p)
    (hgather : ∀ p, collect_sub sms (gather p).main = collect_sub sms p.main ∧
        collect_subroutines sms (gather p) = collect_subroutines sms p)
    (hcombine : ∀ p, collect_sub sms (combine p).main = collect_sub sms p.main ∧
        collect_subroutines sms (combine p) = collect_subroutines sms p)
    (validate : TealBlock TOp → Bool) (initStack : Stack) (target_avm_version : Nat)
    (mir_program : MirProgram MOp) (t0 : TealProgram TOp)
    (hbuild : build_teal isBranching targets beginBlock accept validate initStack
        target_avm_version mir_program = some t0) :
    ∃ t, mir_to_teal isBranching targets beginBlock accept sms optimization_level
          optimize gather combine validate initStack target_avm_version mir_program
        = some t ∧
      collect_program sms t = collect_program sms t0 := by
  unfold mir_to_teal
  rw [hbuild]
  simp only []
  set t1 := if 0 < optimization_level then optimize t0 else t0 with ht1
  set t3 := if 0 < optimization_level then combine (gather t1) else gather t1 with ht3
  have h1m : collect_sub sms t1.main = collect_sub sms t0.main := by
    by_cases h : 0 < optimization_level <;> simp [ht1, h, (hoptimize t0).1]
  have h1s : collect_subroutines sms t1 = collect_subroutines sms t0 := by
    by_cases h : 0 < optimization_level <;> simp [ht1, h, (hoptimize t0).2]
  have h3m : collect_sub sms t3.main = collect_sub sms t0.main := by
    by_cases h : 0 < optimization_level <;>
      simp [ht3, h, (hcombine (gather t1)).1, (hgather t1).1, h1m]
  have h3s : collect_subroutines sms t3 = collect_subroutines sms t0 := by
    by_cases h : 0 < optimization_level <;>
      simp [ht3, h, (hcombine (gather t1)).2, (hgather t1).2, h1s]
  refine ⟨t3, ?_, ?_⟩
  · rw [if_pos h3s.symm]
  · simp [collect_program, h3m, h3s]

end TealLowering

/-- The trivial MIR program of the C1 witness: a `main` with no blocks
and no other subroutines. -/
def c1Mir : MirProgram Unit :=
  { program_id := "p", main := ⟨true, "main", []⟩, subroutines := [] }

/-- The TEAL program `_build_teal` produces from `c1Mir`. -/
def c1T0 : TealProgram Unit :=
  { program_id := "p", target_avm_version := 10, main := ⟨true, "main", []⟩,
    subroutines := [] }

/-- Witness for C1: with identity transforms (which trivially preserve
the stack-manipulation sequences) on the trivial program, `mir_to_teal`
returns a program with the conserved sequence. -/
theorem mir_to_teal_preserves_stack_manipulations_witness :
    ∃ t, mir_to_teal (fun _ : Unit => false) (fun _ : Unit => ([] : List String))
          (fun (s : Unit) _ _ => s) (fun (s : Unit) _ => (([] : List Unit), s))
          (fun _ : Unit => ([] : List Nat)) 1 id id id (fun _ => true) () 10 c1Mir
        = some t ∧
      collect_program (fun _ : Unit => ([] : List Nat)) t
        = collect_program (fun _ : Unit => ([] : List Nat)) c1T0 :=
  mir_to_teal_preserves_stack_manipulations (fun _ : Unit => false)
    (fun _ : Unit => ([] : List String)) (fun (s : Unit) _ _ => s)
    (fun (s : Unit) _ => (([] : List Unit), s)) (fun _ : Unit => ([] : List Nat)) 1
    id id id (fun p => ⟨rfl, rfl⟩) (fun p => ⟨rfl, rfl⟩) (fun p => ⟨rfl, rfl⟩)
    (fun _ => true) () 10 c1Mir c1T0 rfl

end Puya
